import Mathlib

set_option linter.unusedVariables false

namespace IotCommSec

/-- Byte strings of the wire protocol, modelled as lists of naturals. -/
abbrev Bytes := List Nat

/-- Error taxonomy of the design (spec section 7): the distinct failure kinds of the
credential store, the key scheduler and the per-message protect/unprotect pipeline. -/
inductive OscoreError where
  | credentialGenerationError
  | credentialStoreCorrupt
  | unsupportedAlgorithm
  | unknownSender
  | replayDetected
  | decryptionFailed
  | signatureInvalid
  | sequenceExhausted
  | staleChallenge
deriving DecidableEq, Repr

/-- Sliding replay window for one peer (spec section 4.3).  `started` records whether
the window's `initialize_empty` has been run (a window that was never started rejects
everything, which is the hazard called out in the spec's design notes); `anchored`
records whether a first sequence number has been accepted yet. -/
structure ReplayWindow where
  started : Bool
  anchored : Bool
  highest : Nat
  accepted : List Nat
  windowSize : Nat
deriving DecidableEq, Repr

/-- Fixed replay-window size used by the group contexts. -/
def replayWindowSize : Nat := 32

/-- A replay window as it sits inside a freshly constructed base group context, before
anything has called `initialize_empty` on it: not started, rejects every number. -/
def ReplayWindow.mkUnstarted (size : Nat) : ReplayWindow :=
  { started := false, anchored := false, highest := 0, accepted := [], windowSize := size }

/-- Embedding of the window's `initialize_empty` (spec section 4.3): clears the state and
marks the window started but not yet anchored, so the very first received sequence
number is accepted and becomes the initial `highest`. -/
def ReplayWindow.init_empty (w : ReplayWindow) : ReplayWindow :=
  { w with started := true, anchored := false, highest := 0, accepted := [] }

/-- Recording step of `check_and_record`: advance `highest` and evict entries that fell
at or below the new window boundary. -/
def ReplayWindow.recordInto (w : ReplayWindow) (seq : Nat) : ReplayWindow :=
  { w with
    highest := max w.highest seq
    accepted := (seq :: w.accepted).filter
      (fun e => decide (max w.highest seq < e + w.windowSize)) }

/-- Embedding of `check_and_record` (spec section 4.3).  A window that was never started
rejects everything; an unanchored window accepts the first number and anchors on it;
otherwise a number too old (at or below `highest - windowSize`, encoded additively) or
already present is rejected, and an accepted number is recorded with old entries at or
below the new window boundary evicted. -/
def ReplayWindow.check_and_record (w : ReplayWindow) (seq : Nat) : Bool × ReplayWindow :=
  if w.started = false then (false, w)
  else if w.anchored = false then
    (true, { w with anchored := true, highest := seq, accepted := [seq] })
  else if seq + w.windowSize ≤ w.highest then (false, w)
  else if seq ∈ w.accepted then (false, w)
  else (true, w.recordInto seq)

/-- Immutable group parameters shared by all members (spec section 3): group identifier,
master secret, master salt and the algorithm identifiers. -/
structure GroupParameters where
  group_id : Bytes
  master_secret : Bytes
  master_salt : Bytes
  alg_aead : Nat
  alg_signature : Nat
  hashfun : Nat
deriving DecidableEq, Repr

/-- Derived symmetric material for one sender (spec section 3): AEAD key and common IV. -/
structure DerivedKeyMaterial where
  key : Bytes
  commonIV : Bytes
deriving DecidableEq, Repr

/-- Modelled from the spec: the standard key-derivation function used by the
KeyScheduler (aiocoap's HKDF is outside this repository).  It is a deterministic pure
function of the master secret, the master salt and the derivation info, modelled as a
length-prefixed encoding of its inputs. -/
def kdf (secret salt info : Bytes) : Bytes :=
  [secret.length] ++ secret ++ [salt.length] ++ salt ++ [info.length] ++ info

/-- Modelled from the spec: `KeyScheduler.derive` (spec section 4.2) feeds the master
secret and salt through the key-derivation function with the group identifier, sender
identifier and recipient identifier as derivation info; the common IV is group wide. -/
def derive (p : GroupParameters) (sender_id recipient_id : Bytes) : DerivedKeyMaterial :=
  { key := kdf p.master_secret p.master_salt
      (p.group_id ++ [0] ++ sender_id ++ [0] ++ recipient_id ++ [p.alg_aead, p.hashfun])
    commonIV := kdf p.master_secret p.master_salt (p.group_id ++ [1, p.hashfun]) }

/-- Modelled from the spec: the public verification credential belonging to an Ed25519
signing private key (the key generation of `generate_with_ccs` is outside this
repository); modelled as a fixed injective transformation of the private key bytes. -/
def pubOf (sk : Bytes) : Bytes := sk.map (fun b => (b + 1) % 256)

/-- Digest used by the modelled signature scheme. -/
def sigDigest (cred msg : Bytes) : Nat :=
  (cred ++ msg).foldl (fun a b => (a * 31 + b) % 251) 7

/-- Modelled from the spec: detached countersignature over a message with the sender's
private signing key. -/
def sign (sk msg : Bytes) : Bytes := [sigDigest (pubOf sk) msg]

/-- Modelled from the spec: verification of a detached countersignature against the
sender's public credential. -/
def verify (cred msg sig : Bytes) : Bool := sig == [sigDigest cred msg]

/-- Keystream byte `i` of the modelled AEAD cipher for a given key and nonce. -/
def ksByte (key nonce : Bytes) (i : Nat) : Nat :=
  (key.foldl (fun a b => a * 7 + b) 1 + nonce.foldl (fun a b => a * 5 + b) 3 + i * 13) % 256

/-- Mask a byte string with a keystream starting at index `i` (exclusive-or stream
cipher core of the modelled AEAD). -/
def xmask (ks : Nat → Nat) : Nat → Bytes → Bytes
  | _, [] => []
  | i, b :: bs => (b ^^^ ks i) :: xmask ks (i + 1) bs

/-- Authentication tag of the modelled AEAD over key, nonce, associated data and
ciphertext. -/
def tagOf (key nonce aad ct : Bytes) : Nat :=
  (key ++ nonce ++ [0] ++ aad ++ [0] ++ ct).foldl (fun a b => (a * 33 + b) % 257) 5

/-- Modelled from the spec: AEAD encryption (spec section 4.4 step 3); ciphertext is the
masked plaintext followed by the authentication tag. -/
def aeadEncrypt (key nonce aad pt : Bytes) : Bytes :=
  xmask (ksByte key nonce) 0 pt ++ [tagOf key nonce aad (xmask (ksByte key nonce) 0 pt)]

/-- Modelled from the spec: AEAD decryption (spec section 4.5 step 4); checks the
authentication tag and unmasks the body, failing uniformly on any mismatch. -/
def aeadDecrypt (key nonce aad ct : Bytes) : Option Bytes :=
  if ct.getLast? = some (tagOf key nonce aad ct.dropLast) then
    some (xmask (ksByte key nonce) 0 ct.dropLast)
  else none

/-- Plaintext application message: request/response code and payload. -/
structure PlainMessage where
  code : Nat
  payload : Bytes
deriving DecidableEq, Repr

/-- Byte encoding of a plaintext message inside the AEAD plaintext. -/
def encodePlain (m : PlainMessage) : Bytes := m.code :: m.payload

/-- Inverse of `encodePlain`. -/
def decodePlain (bs : Bytes) : PlainMessage :=
  match bs with
  | [] => { code := 0, payload := [] }
  | c :: p => { code := c, payload := p }

/-- Wire-level protected message (spec sections 3 and 6): sender key identifier, the
transmitted sequence number, and the body consisting of the AEAD ciphertext with the
detached countersignature appended. -/
structure ProtectedMessage where
  kid : Bytes
  piv : Nat
  body : Bytes
deriving DecidableEq, Repr

/-- Aggregate security context (spec section 3): group parameters, this member's
credential, cached derived key material, the outbound sequence counter, one replay
window per peer and the echo-recovery token. -/
structure SecurityContext where
  params : GroupParameters
  sender_id : Bytes
  private_key : Bytes
  sender_auth_cred : Bytes
  group_manager_cred : Bytes
  peers : List (Bytes × Bytes)
  sender_key : DerivedKeyMaterial
  recipient_keys : List (Bytes × DerivedKeyMaterial)
  sender_sequence_number : Nat
  recipient_replay_windows : List (Bytes × ReplayWindow)
  echo_recovery : Bytes
deriving DecidableEq, Repr

/-- Constructor arguments of the group context, mirroring the keyword arguments the
repository passes to `SimpleGroupContext` (`oscore_group_network_fixed.py`,
`create_group_context`). -/
structure GroupConfigInput where
  alg_aead : Nat
  hashfun : Nat
  alg_signature : Nat
  group_id : Bytes
  master_secret : Bytes
  master_salt : Bytes
  sender_id : Bytes
  private_key : Bytes
  sender_auth_cred : Bytes
  peers : List (Bytes × Bytes)
  group_manager_cred : Bytes
deriving DecidableEq, Repr

/-- Group parameters carried by a constructor input. -/
def GroupConfigInput.toParams (c : GroupConfigInput) : GroupParameters :=
  { group_id := c.group_id
    master_secret := c.master_secret
    master_salt := c.master_salt
    alg_aead := c.alg_aead
    alg_signature := c.alg_signature
    hashfun := c.hashfun }

/-- Group-wide recipient identifier used for the key derivations of group mode (the
whole group, not one pairwise peer). -/
def groupRecipient : Bytes := []

/-- Modelled from the spec: construction of the base group context (aiocoap's
`SimpleGroupContext` is outside this repository).  It derives and caches the key
material of this sender and of every peer, starts the outbound counter at zero, and
creates one replay window per peer; per the spec's design notes the base class leaves
those windows unstarted and provides no echo-recovery token. -/
def mkSimpleGroupContext (c : GroupConfigInput) : SecurityContext :=
  { params := c.toParams
    sender_id := c.sender_id
    private_key := c.private_key
    sender_auth_cred := c.sender_auth_cred
    group_manager_cred := c.group_manager_cred
    peers := c.peers
    sender_key := derive c.toParams c.sender_id groupRecipient
    recipient_keys := c.peers.map (fun p => (p.1, derive c.toParams p.1 groupRecipient))
    sender_sequence_number := 0
    recipient_replay_windows := c.peers.map (fun p => (p.1, ReplayWindow.mkUnstarted replayWindowSize))
    echo_recovery := [] }

/-- Embedding of `FixedGroupContext.__init__` (`oscore_group_network_fixed.py`): after
the base constructor it draws a fresh echo-recovery token and runs `initialize_empty`
on the replay window of every peer identifier present in the window table. -/
def fixedGroupContextInit (echoToken : Bytes) (ctx : SecurityContext) : SecurityContext :=
  { ctx with
    echo_recovery := echoToken
    recipient_replay_windows := ctx.recipient_replay_windows.map
      (fun pw => cond (ctx.peers.any (fun p => p.1 == pw.1)) (pw.1, pw.2.init_empty) pw) }

/-- The repository's corrected constructor: base construction followed by the fixes of
`FixedGroupContext.__init__`. -/
def mkFixedGroupContext (c : GroupConfigInput) (echoToken : Bytes) : SecurityContext :=
  fixedGroupContextInit echoToken (mkSimpleGroupContext c)

/-- Embedding of `FixedGroupContext.pairwise_for` (`oscore_group_network_fixed.py`) and
`BenchmarkGroupContext.pairwise_for` (`oscore_group_benchmark.py`): instead of building
a pairwise context aspect, the group context itself is returned for every recipient. -/
def pairwise_for (ctx : SecurityContext) (recipient_id : Bytes) : SecurityContext := ctx

/-- Largest representable outbound sequence number before the fixed-width counter would
wrap (spec section 4.4 step 1). -/
def maxSequenceNumber : Nat := 2 ^ 40

/-- Deterministic AEAD nonce of spec section 4.4 step 3, built from the common IV, the
sender identifier and the sequence number. -/
def buildNonce (material : DerivedKeyMaterial) (sender_id : Bytes) (seq : Nat) : Bytes :=
  material.commonIV ++ sender_id ++ [seq]

/-- External associated data of spec section 4.4 step 2: group identifier, algorithm
identifiers and sender identifier, extended for responses with the correlated request's
sequence number. -/
def externalAad (p : GroupParameters) (sender_id : Bytes) (corr : Option Nat) : Bytes :=
  p.group_id ++ [p.alg_aead, p.alg_signature] ++ sender_id ++
    (match corr with
     | none => []
     | some r => [1, r])

/-- Result of one `protect` call: the wire message, the sequence number it consumed,
the AEAD nonce it used, and the correlation identifier handed back to the caller. -/
structure ProtectOutput where
  msg : ProtectedMessage
  seq : Nat
  nonce : Bytes
  correlation : Nat
deriving DecidableEq, Repr

/-- Modelled from the spec: `SecurityContext.protect` (spec section 4.4).  Allocates the
next sequence number (failing with `sequenceExhausted` at the counter bound), builds
the deterministic nonce and the associated data, encrypts, appends the detached
countersignature, and returns the wire message together with the advanced context. -/
def protect (ctx : SecurityContext) (m : PlainMessage) (corr : Option Nat) :
    Except OscoreError (ProtectOutput × SecurityContext) :=
  if maxSequenceNumber ≤ ctx.sender_sequence_number then .error .sequenceExhausted
  else
    let seq := ctx.sender_sequence_number
    let nonce := buildNonce ctx.sender_key ctx.sender_id seq
    let aad := externalAad ctx.params ctx.sender_id corr
    let ct := aeadEncrypt ctx.sender_key.key nonce aad (encodePlain m)
    let sig := sign ctx.private_key (aad ++ ct)
    .ok ({ msg := { kid := ctx.sender_id, piv := seq, body := ct ++ sig }
           seq := seq
           nonce := nonce
           correlation := seq },
         { ctx with sender_sequence_number := seq + 1 })

/-- Replace the stored replay window of one peer. -/
def updateWindow (l : List (Bytes × ReplayWindow)) (k : Bytes) (v : ReplayWindow) :
    List (Bytes × ReplayWindow) :=
  l.map (fun pw => cond (pw.1 == k) (k, v) pw)

/-- Modelled from the spec: `SecurityContext.unprotect` (spec section 4.5).  Resolves the
sender's credential and key material (`unknownSender` otherwise), consults the peer's
replay window before any decryption (`replayDetected` on rejection), decrypts
(`decryptionFailed` on tag mismatch), verifies the detached countersignature
(`signatureInvalid` on mismatch) and returns the plaintext with the context whose
replay window was advanced. -/
def unprotect (ctx : SecurityContext) (pm : ProtectedMessage) (corr : Option Nat) :
    Except OscoreError (PlainMessage × SecurityContext) :=
  match ctx.peers.lookup pm.kid, ctx.recipient_keys.lookup pm.kid,
      ctx.recipient_replay_windows.lookup pm.kid with
  | some cred, some material, some w =>
    match w.check_and_record pm.piv with
    | (true, w2) =>
      match aeadDecrypt material.key (buildNonce material pm.kid pm.piv)
          (externalAad ctx.params pm.kid corr) (pm.body.take (pm.body.length - 1)) with
      | some pt =>
        if verify cred
            (externalAad ctx.params pm.kid corr ++ pm.body.take (pm.body.length - 1))
            (pm.body.drop (pm.body.length - 1)) then
          .ok (decodePlain pt,
            { ctx with recipient_replay_windows := updateWindow ctx.recipient_replay_windows pm.kid w2 })
        else .error .signatureInvalid
      | none => .error .decryptionFailed
    | (false, _) => .error .replayDetected
  | _, _, _ => .error .unknownSender

/-- Shared group configuration built by `create_shared_group_config`
(`server_oscore_group_testing.py`): group identifiers, master secret and salt, member
identifiers, and one signing keypair each for the group manager, the client and the
server.  The random draws of that function are modelled as explicit byte inputs; each
public credential is `pubOf` of its private key, as produced by `generate_with_ccs`. -/
structure SharedGroupConfig where
  group_id : Bytes
  master_secret : Bytes
  master_salt : Bytes
  alg_aead : Nat
  alg_signature : Nat
  hashfun : Nat
  client_id : Bytes
  server_id : Bytes
  gm_private_key : Bytes
  client_private_key : Bytes
  server_private_key : Bytes
deriving DecidableEq, Repr

/-- Constructor input for the client context (`create_group_contexts_from_config`): the
client's own credential and the server as its single peer. -/
def clientInput (c : SharedGroupConfig) : GroupConfigInput :=
  { alg_aead := c.alg_aead
    hashfun := c.hashfun
    alg_signature := c.alg_signature
    group_id := c.group_id
    master_secret := c.master_secret
    master_salt := c.master_salt
    sender_id := c.client_id
    private_key := c.client_private_key
    sender_auth_cred := pubOf c.client_private_key
    peers := [(c.server_id, pubOf c.server_private_key)]
    group_manager_cred := pubOf c.gm_private_key }

/-- Constructor input for the server context (`create_group_contexts_from_config`): the
server's own credential and the client as its single peer. -/
def serverInput (c : SharedGroupConfig) : GroupConfigInput :=
  { alg_aead := c.alg_aead
    hashfun := c.hashfun
    alg_signature := c.alg_signature
    group_id := c.group_id
    master_secret := c.master_secret
    master_salt := c.master_salt
    sender_id := c.server_id
    private_key := c.server_private_key
    sender_auth_cred := pubOf c.server_private_key
    peers := [(c.client_id, pubOf c.client_private_key)]
    group_manager_cred := pubOf c.gm_private_key }

/-- Client security context built from the shared configuration with the repository's
corrected constructor. -/
def mkClientContext (c : SharedGroupConfig) (echoToken : Bytes) : SecurityContext :=
  mkFixedGroupContext (clientInput c) echoToken

/-- Server security context built from the shared configuration with the repository's
corrected constructor. -/
def mkServerContext (c : SharedGroupConfig) (echoToken : Bytes) : SecurityContext :=
  mkFixedGroupContext (serverInput c) echoToken

/-- The bidirectional communication scenario of `simulate_complete_communication`
(`server_oscore_group_testing.py`): the client protects a request, the server
unprotects it, the server protects the response bound to the request's correlation
identifier, and the client unprotects that response; the two recovered plaintexts are
returned when every step succeeds. -/
def roundTrip (c : SharedGroupConfig) (ec es : Bytes) (req resp : PlainMessage) :
    Option (PlainMessage × PlainMessage) :=
  match protect (mkClientContext c ec) req none with
  | .ok (o1, cctx1) =>
    match unprotect (mkServerContext c es) o1.msg none with
    | .ok (req2, sctx1) =>
      match protect sctx1 resp (some o1.correlation) with
      | .ok (o2, _) =>
        match unprotect cctx1 o2.msg (some o1.correlation) with
        | .ok (resp2, _) => some (req2, resp2)
        | .error _ => none
      | .error _ => none
    | .error _ => none
  | .error _ => none

/-- Run `protect` once per listed message (message plus optional correlation) on one
context, threading the advanced context through; fails when any single call fails. -/
def protectMany :
    SecurityContext → List (PlainMessage × Option Nat) →
      Except OscoreError (List ProtectOutput × SecurityContext)
  | ctx, [] => .ok ([], ctx)
  | ctx, (m, corr) :: rest =>
    match protect ctx m corr with
    | .error e => .error e
    | .ok (o, ctx1) =>
      match protectMany ctx1 rest with
      | .error e => .error e
      | .ok (os, ctx2) => .ok (o :: os, ctx2)

/-- The replay-window state right after `initialize_empty` has run on a fresh window. -/
def freshReplayWindow : ReplayWindow :=
  (ReplayWindow.mkUnstarted replayWindowSize).init_empty

/-- One entry of the persisted credential dictionary: raw private key bytes and raw
public credential bytes. -/
structure CredEntry where
  private_key : Bytes
  credential : Bytes
deriving DecidableEq, Repr

/-- The credential dictionary of `generate_and_save_credentials`: one entry for the
group manager, one for the client, one for the server. -/
structure Credentials where
  group_manager : CredEntry
  client : CredEntry
  server : CredEntry
deriving DecidableEq, Repr

/-- Random byte draws consumed by credential generation, one Ed25519 private key per
generated keypair (`generate_with_ccs` is modelled as `pubOf` over the drawn key). -/
structure SeedSource where
  gm_seed : Bytes
  client_seed : Bytes
  server_seed : Bytes
deriving DecidableEq, Repr

/-- The credential file path constant of the scripts. -/
def CREDENTIALS_FILE : String := "oscore_group_credentials.json"

/-- File-system operations the credential store performs, for reasoning about write
atomicity. -/
inductive FileOp where
  | openWrite (path : String)
  | writeData (path : String) (data : String)
  | rename (src dst : String)
deriving DecidableEq, Repr

/-- Whether an operation is a rename. -/
def FileOp.isRename : FileOp → Bool
  | .rename _ _ => true
  | _ => false

/-- Lower-case hex digit of a value below 16. -/
def hexDigit (n : Nat) : Char :=
  if n < 10 then Char.ofNat (48 + n) else Char.ofNat (87 + n)

/-- Two-digit lower-case hex rendering of one byte, as Python's `bytes.hex` produces. -/
def hexByte (b : Nat) : String :=
  String.mk [hexDigit (b / 16 % 16), hexDigit (b % 16)]

/-- Hex rendering of a byte string. -/
def bytesHex (bs : Bytes) : String := String.join (bs.map hexByte)

/-- Keypair generation of the three credentials from the seed source, mirroring the
three `generate_with_ccs` calls of `generate_and_save_credentials`. -/
def generate_credentials (s : SeedSource) : Credentials :=
  { group_manager := { private_key := s.gm_seed, credential := pubOf s.gm_seed }
    client := { private_key := s.client_seed, credential := pubOf s.client_seed }
    server := { private_key := s.server_seed, credential := pubOf s.server_seed } }

/-- The key/value layout of the dictionary literal written by
`generate_and_save_credentials`: the fixed keys `group_manager`, `client` and `server`,
in that order. -/
def credentialEntries (c : Credentials) : List (String × CredEntry) :=
  [("group_manager", c.group_manager), ("client", c.client), ("server", c.server)]

/-- The serialized entries as they appear in the JSON file: each key paired with the hex
renderings of the private key and of the credential. -/
def serializedEntries (c : Credentials) : List (String × String × String) :=
  (credentialEntries c).map (fun e => (e.1, bytesHex e.2.private_key, bytesHex e.2.credential))

/-- Flat text rendering of the credential file contents. -/
def serializeCredentials (c : Credentials) : String :=
  String.join ((serializedEntries c).map (fun e => e.1 ++ ":" ++ e.2.1 ++ ":" ++ e.2.2 ++ ";"))

/-- Embedding of `generate_and_save_credentials` (`oscore_group_network_fixed.py`, also
`load_or_create_credentials` in `oscore_group_benchmark.py`): generate the three
keypairs, then write the serialized dictionary by opening the credential file path
directly and dumping into it.  Returns the credentials together with the file
operations performed. -/
def generate_and_save_credentials (s : SeedSource) : Credentials × List FileOp :=
  (generate_credentials s,
   [FileOp.openWrite CREDENTIALS_FILE,
    FileOp.writeData CREDENTIALS_FILE (serializeCredentials (generate_credentials s))])

/-- A trace writes `final` atomically via write-temp-then-rename when no operation opens
or writes at `final` directly, so the final path can only ever appear complete. -/
def atomicViaTempRename (t : List FileOp) (final : String) : Bool :=
  t.all (fun op => match op with
    | .openWrite p => p != final
    | .writeData p _ => p != final
    | .rename _ _ => true)

/-- State of the persisted credential file as `load_credentials` finds it. -/
inductive CredFile where
  | absent
  | wellFormed (c : Credentials)
  | corrupt (raw : String)
deriving DecidableEq, Repr

/-- Outcome of `load_credentials`: the source function never raises; it answers either
with the parsed file contents or with freshly regenerated credentials. -/
inductive LoadOutcome where
  | loadedFromFile (c : Credentials)
  | regenerated (c : Credentials) (ops : List FileOp)
deriving DecidableEq, Repr

/-- Embedding of `load_credentials` (`oscore_group_network_fixed.py`): an absent file
triggers generation; a well-formed file is loaded as is; a read or parse error is
caught, logged and answered by regenerating and saving fresh credentials. -/
def load_credentials (s : SeedSource) (f : CredFile) : LoadOutcome :=
  match f with
  | .absent =>
    .regenerated (generate_and_save_credentials s).1 (generate_and_save_credentials s).2
  | .wellFormed c => .loadedFromFile c
  | .corrupt _ =>
    .regenerated (generate_and_save_credentials s).1 (generate_and_save_credentials s).2

/-- The credentials a run proceeds with after `load_credentials`. -/
def loadedCreds (s : SeedSource) (f : CredFile) : Credentials :=
  match load_credentials s f with
  | .loadedFromFile c => c
  | .regenerated c _ => c

/-- Algorithm identifier of A128GCM in this embedding. -/
def aeadA128GCM : Nat := 1

/-- Algorithm identifier of Ed25519 in this embedding. -/
def sigEd25519 : Nat := 2

/-- Algorithm identifier of sha256 in this embedding. -/
def hashSha256 : Nat := 3

/-- Whether both the configured AEAD and hash identifiers are implemented; A128GCM with
sha256 is the implemented combination. -/
def supportedAlgorithms (aead hash : Nat) : Bool :=
  aead == aeadA128GCM && hash == hashSha256

/-- Modelled from the spec: the group-context constructor fails with
`unsupportedAlgorithm` when the configured AEAD or hash identifier is not implemented
(spec section 4.2); the constructor call itself can therefore raise, which the scripts
wrap in try/except. -/
def mkFixedGroupContextE (c : GroupConfigInput) (echoToken : Bytes) :
    Except OscoreError SecurityContext :=
  if supportedAlgorithms c.alg_aead c.hashfun then .ok (mkFixedGroupContext c echoToken)
  else .error .unsupportedAlgorithm

/-- The member identifiers and group parameters of the fixed `GROUP_CONFIG` dictionary
(`oscore_group_network_fixed.py`): group id b-grp1, the fixed master secret and salt,
client id b-C1 and server id b-S1. -/
def GROUP_CONFIG_group_id : Bytes := [103, 114, 112, 49]

/-- Master secret of `GROUP_CONFIG` (hex 425a524d5a32f7d0d386603359fa3832). -/
def GROUP_CONFIG_master_secret : Bytes :=
  [66, 90, 82, 77, 90, 50, 247, 208, 211, 134, 96, 51, 89, 250, 56, 50]

/-- Master salt of `GROUP_CONFIG` (hex 1b0b57f74ef4099c). -/
def GROUP_CONFIG_master_salt : Bytes := [27, 11, 87, 247, 78, 244, 9, 156]

/-- Client member identifier of `GROUP_CONFIG` (ASCII C1). -/
def GROUP_CONFIG_client_id : Bytes := [67, 49]

/-- Server member identifier of `GROUP_CONFIG` (ASCII S1). -/
def GROUP_CONFIG_server_id : Bytes := [83, 49]

/-- ASCII rendering of a member identifier byte string, for comparison against the
string keys of the credential file. -/
def memberIdKey (b : Bytes) : String := String.mk (b.map Char.ofNat)

/-- Constructor input assembled by `create_group_context`
(`oscore_group_network_fixed.py`) from `GROUP_CONFIG` and the loaded credentials: the
client knows the server as its one peer and vice versa. -/
def groupContextInput (isClient : Bool) (creds : Credentials) : GroupConfigInput :=
  { alg_aead := aeadA128GCM
    hashfun := hashSha256
    alg_signature := sigEd25519
    group_id := GROUP_CONFIG_group_id
    master_secret := GROUP_CONFIG_master_secret
    master_salt := GROUP_CONFIG_master_salt
    sender_id := cond isClient GROUP_CONFIG_client_id GROUP_CONFIG_server_id
    private_key := cond isClient creds.client.private_key creds.server.private_key
    sender_auth_cred := cond isClient creds.client.credential creds.server.credential
    peers := cond isClient [(GROUP_CONFIG_server_id, creds.server.credential)]
      [(GROUP_CONFIG_client_id, creds.client.credential)]
    group_manager_cred := creds.group_manager.credential }

/-- Embedding of `create_group_context` (`oscore_group_network_fixed.py`): load the
credentials, assemble the constructor input, and call the constructor inside a
try/except that logs any constructor error and returns None, modelled as `Option`. -/
def create_group_context (isClient : Bool) (s : SeedSource) (f : CredFile)
    (echoToken : Bytes) : Option SecurityContext :=
  match mkFixedGroupContextE (groupContextInput isClient (loadedCreds s f)) echoToken with
  | .ok ctx => some ctx
  | .error _ => none

/-- Startup outcome of the server with respect to context construction. -/
inductive ServerStart where
  | running (ctx : SecurityContext)
  | abortedNoContext
deriving DecidableEq, Repr

/-- Embedding of the construction head of `run_server`
(`oscore_group_network_fixed.py`): when `create_group_context` hands back no context the
server logs the failure and returns without serving anything. -/
def run_server_start (s : SeedSource) (f : CredFile) (echoToken : Bytes) : ServerStart :=
  match create_group_context false s f echoToken with
  | some ctx => .running ctx
  | none => .abortedNoContext

/-- Small concrete shared configuration used to exercise the pipeline on closed inputs. -/
def witConfig : SharedGroupConfig :=
  { group_id := [1, 2]
    master_secret := [3]
    master_salt := [4]
    alg_aead := 1
    alg_signature := 2
    hashfun := 3
    client_id := [67, 49]
    server_id := [83, 49]
    gm_private_key := [5]
    client_private_key := [6]
    server_private_key := [7] }

/-- Concrete client context for the closed runs. -/
def c1WitnessCtx : SecurityContext := mkClientContext witConfig [9]

/-- Three concrete messages protected in sequence. -/
def c1WitnessMsgs : List (PlainMessage × Option Nat) :=
  [({ code := 1, payload := [5] }, none), ({ code := 1, payload := [6] }, none),
   ({ code := 2, payload := [] }, some 0)]

/-- The run of three consecutive `protect` calls. -/
def c1WitnessRun : Except OscoreError (List ProtectOutput × SecurityContext) :=
  protectMany c1WitnessCtx c1WitnessMsgs

/-- Outputs of the concrete run. -/
def c1WitnessOuts : List ProtectOutput :=
  match c1WitnessRun with
  | .ok (os, _) => os
  | .error _ => []

/-- Final context of the concrete run. -/
def c1WitnessCtx2 : SecurityContext :=
  match c1WitnessRun with
  | .ok (_, ctx) => ctx
  | .error _ => c1WitnessCtx

/-- Concrete server context receiving one protected message. -/
def c3WitnessCtx : SecurityContext := mkServerContext witConfig [8]

/-- A concrete protected message produced by the matching client context. -/
def c3WitnessMsg : ProtectedMessage :=
  match protect (mkClientContext witConfig [9]) { code := 1, payload := [5] } none with
  | .ok (o, _) => o.msg
  | .error _ => { kid := [], piv := 0, body := [] }

/-- First delivery of the concrete protected message. -/
def c3WitnessRun : Except OscoreError (PlainMessage × SecurityContext) :=
  unprotect c3WitnessCtx c3WitnessMsg none

/-- Plaintext recovered by the first delivery. -/
def c3WitnessPt : PlainMessage :=
  match c3WitnessRun with
  | .ok (p, _) => p
  | .error _ => { code := 0, payload := [] }

/-- Receiver context after the first delivery. -/
def c3WitnessCtx2 : SecurityContext :=
  match c3WitnessRun with
  | .ok (_, ctx) => ctx
  | .error _ => c3WitnessCtx

/-- Concrete constructor input with one configured peer. -/
def c4WitnessInput : GroupConfigInput := clientInput witConfig

/-- Concrete seed source for the credential runs. -/
def seedWit : SeedSource := { gm_seed := [1], client_seed := [2], server_seed := [3] }

theorem ReplayWindow.check_and_record_reject_repeat (w w' : ReplayWindow) (s : Nat)
    (h : w.check_and_record s = (true, w')) :
    w'.check_and_record s = (false, w') := by
  unfold ReplayWindow.check_and_record at h
  split at h
  · exact absurd (congrArg Prod.fst h) (by simp)
  next hstart =>
    split at h
    next hanch =>
      have hw : w' = { w with anchored := true, highest := s, accepted := [s] } :=
        (congrArg Prod.snd h).symm
      subst hw
      unfold ReplayWindow.check_and_record
      simp only [if_neg hstart]
      by_cases hold : s + w.windowSize ≤ s
      · simp [hold]
      · simp [hold]
    next hanch =>
      split at h
      · exact absurd (congrArg Prod.fst h) (by simp)
      next hold =>
        split at h
        · exact absurd (congrArg Prod.fst h) (by simp)
        next hmem =>
          have hw : w' = w.recordInto s := (congrArg Prod.snd h).symm
          subst hw
          unfold ReplayWindow.check_and_record
          simp only [ReplayWindow.recordInto, if_neg hstart]
          by_cases hold2 : s + w.windowSize ≤ max w.highest s
          · simp [hold2, hanch]
          · have hmem2 : s ∈ (s :: w.accepted).filter
                (fun e => decide (max w.highest s < e + w.windowSize)) := by
              refine List.mem_filter.2 ⟨List.mem_cons_self _ _, ?_⟩
              simpa using Nat.lt_of_not_le hold2
            have h1 : max w.highest s < s + w.windowSize := Nat.lt_of_not_le hold2
            have h3 : s ≤ max w.highest s := le_max_right _ _
            simp [hold2, hanch, hmem2]
            refine ⟨lt_of_le_of_lt (le_max_left _ _) h1, ?_⟩
            intro h0
            rw [h0, Nat.add_zero] at h1
            exact absurd (lt_of_lt_of_le h1 h3) (lt_irrefl _)

theorem verify_sign (sk msg : Bytes) : verify (pubOf sk) msg (sign sk msg) = true := by
  simp [verify, sign]

theorem xmask_xmask (ks : Nat → Nat) (i : Nat) (bs : Bytes) :
    xmask ks i (xmask ks i bs) = bs := by
  induction bs generalizing i with
  | nil => rfl
  | cons b bs ih =>
    simp only [xmask, ih]
    rw [Nat.xor_assoc, Nat.xor_self, Nat.xor_zero]

theorem aeadDecrypt_aeadEncrypt (key nonce aad pt : Bytes) :
    aeadDecrypt key nonce aad (aeadEncrypt key nonce aad pt) = some pt := by
  unfold aeadDecrypt aeadEncrypt
  rw [List.getLast?_concat, List.dropLast_concat]
  simp [xmask_xmask]

theorem decodePlain_encodePlain (m : PlainMessage) : decodePlain (encodePlain m) = m := rfl

theorem take_concat_len (l : Bytes) (x : Nat) :
    (l ++ [x]).take ((l ++ [x]).length - 1) = l := by simp

theorem drop_concat_len (l : Bytes) (x : Nat) :
    (l ++ [x]).drop ((l ++ [x]).length - 1) = [x] := by simp

theorem protect_inv (ctx : SecurityContext) (m : PlainMessage) (corr : Option Nat)
    (o : ProtectOutput) (ctx' : SecurityContext)
    (h : protect ctx m corr = .ok (o, ctx')) :
    o.seq = ctx.sender_sequence_number ∧
    o.nonce = buildNonce ctx.sender_key ctx.sender_id ctx.sender_sequence_number ∧
    ctx' = { ctx with sender_sequence_number := ctx.sender_sequence_number + 1 } := by
  unfold protect at h
  split at h
  · exact absurd h (by simp)
  · simp only [Except.ok.injEq, Prod.mk.injEq] at h
    obtain ⟨h1, h2⟩ := h
    subst h1
    subst h2
    exact ⟨rfl, rfl, rfl⟩

theorem lookup_updateWindow (k : Bytes) (v : ReplayWindow) :
    ∀ (l : List (Bytes × ReplayWindow)) (w : ReplayWindow),
      l.lookup k = some w → (updateWindow l k v).lookup k = some v := by
  intro l
  induction l with
  | nil =>
    intro w h
    simp [List.lookup] at h
  | cons a t ih =>
    intro w h
    obtain ⟨ak, aw⟩ := a
    by_cases hk : k = ak
    · subst hk
      simp [updateWindow, List.lookup]
    · have hbe : (k == ak) = false := beq_eq_false_iff_ne.mpr hk
      have hbe2 : (ak == k) = false := beq_eq_false_iff_ne.mpr (Ne.symm hk)
      simp only [List.lookup, hbe] at h
      simp only [updateWindow, List.map_cons, hbe2, cond_false, List.lookup, hbe]
      simpa only [updateWindow] using ih w h

theorem buildNonce_inj (material : DerivedKeyMaterial) (sid : Bytes) (s1 s2 : Nat)
    (h : buildNonce material sid s1 = buildNonce material sid s2) : s1 = s2 := by
  unfold buildNonce at h
  have h2 : ([s1] : Bytes) = [s2] := List.append_cancel_left h
  simpa using h2

theorem protectMany_pairwise :
    ∀ (msgs : List (PlainMessage × Option Nat)) (ctx : SecurityContext)
      (outs : List ProtectOutput) (ctx' : SecurityContext),
      protectMany ctx msgs = .ok (outs, ctx') →
      List.Pairwise (fun a b => a.seq < b.seq) outs ∧
      ∀ o ∈ outs, ctx.sender_sequence_number ≤ o.seq ∧
        o.nonce = buildNonce ctx.sender_key ctx.sender_id o.seq := by
  intro msgs
  induction msgs with
  | nil =>
    intro ctx outs ctx' h
    simp only [protectMany, Except.ok.injEq, Prod.mk.injEq] at h
    obtain ⟨h1, h2⟩ := h
    subst h1
    simp
  | cons mc rest ih =>
    intro ctx outs ctx' h
    obtain ⟨m, corr⟩ := mc
    simp only [protectMany] at h
    split at h
    · exact absurd h (by simp)
    next o ctx1 hp =>
      split at h
      · exact absurd h (by simp)
      next os ctx2 hrest =>
        simp only [Except.ok.injEq, Prod.mk.injEq] at h
        obtain ⟨h1, h2⟩ := h
        subst h1
        obtain ⟨hseq, hnonce, hctx1⟩ := protect_inv ctx m corr o ctx1 hp
        obtain ⟨ihpw, ihmem⟩ := ih ctx1 os ctx2 hrest
        have hkey : ctx1.sender_key = ctx.sender_key := by rw [hctx1]
        have hsid : ctx1.sender_id = ctx.sender_id := by rw [hctx1]
        have hctr : ctx1.sender_sequence_number = ctx.sender_sequence_number + 1 := by
          rw [hctx1]
        constructor
        · refine List.pairwise_cons.2 ⟨?_, ihpw⟩
          intro o' ho'
          have hb := (ihmem o' ho').1
          rw [hctr] at hb
          omega
        · intro o' ho'
          rcases List.mem_cons.1 ho' with h' | h'
          · subst h'
            exact ⟨Nat.le_of_eq hseq.symm, by rw [hnonce, hseq]⟩
          · have hb := ihmem o' h'
            rw [hctr, hkey, hsid] at hb
            exact ⟨by omega, hb.2⟩

theorem fixedWindows_eq (c : GroupConfigInput) (e : Bytes) :
    (mkFixedGroupContext c e).recipient_replay_windows =
      c.peers.map (fun p => (p.1, freshReplayWindow)) := by
  simp only [mkFixedGroupContext, fixedGroupContextInit, mkSimpleGroupContext, List.map_map]
  refine List.map_congr_left ?_
  intro p hp
  have hany : c.peers.any (fun q => q.1 == p.1) = true :=
    List.any_eq_true.2 ⟨p, hp, beq_self_eq_true p.1⟩
  simp [Function.comp, hany, freshReplayWindow]

theorem lookup_map_const (pid : Bytes) (v : ReplayWindow) :
    ∀ (l : List (Bytes × Bytes)), pid ∈ l.map Prod.fst →
      (l.map (fun p => (p.1, v))).lookup pid = some v := by
  intro l
  induction l with
  | nil =>
    intro h
    simp at h
  | cons a t ih =>
    intro h
    simp only [List.map_cons] at h
    by_cases hk : pid = a.1
    · simp [List.lookup, hk]
    · have hmem : pid ∈ t.map Prod.fst := by
        rcases List.mem_cons.1 h with h1 | h1
        · exact absurd h1 hk
        · exact h1
      have hbe : (pid == a.1) = false := beq_eq_false_iff_ne.mpr hk
      simp only [List.map_cons, List.lookup, hbe]
      exact ih hmem

/-- C1: for every context and every list of messages, consecutive `protect` calls that
all succeed yield strictly increasing sequence numbers with no repeats, and no two of
the calls produce the same AEAD nonce. -/
theorem claim_C1_sequence_monotonicity (ctx : SecurityContext)
    (msgs : List (PlainMessage × Option Nat)) (outs : List ProtectOutput)
    (ctx' : SecurityContext) (h : protectMany ctx msgs = .ok (outs, ctx')) :
    (outs.map (fun o => o.seq)).Pairwise (· < ·) ∧
    (outs.map (fun o => o.seq)).Nodup ∧
    (outs.map (fun o => o.nonce)).Nodup := by
  obtain ⟨hpw, hmem⟩ := protectMany_pairwise msgs ctx outs ctx' h
  have hseq : (outs.map (fun o => o.seq)).Pairwise (· < ·) :=
    hpw.map _ (fun a b hab => hab)
  refine ⟨hseq, hseq.imp (fun hab => Nat.ne_of_lt hab), ?_⟩
  have hmap : outs.map (fun o => o.nonce) =
      (outs.map (fun o => o.seq)).map (buildNonce ctx.sender_key ctx.sender_id) := by
    rw [List.map_map]
    exact List.map_congr_left (fun o ho => (hmem o ho).2)
  rw [hmap]
  refine List.Nodup.map ?_ (hseq.imp (fun hab => Nat.ne_of_lt hab))
  intro s1 s2 hs
  exact buildNonce_inj ctx.sender_key ctx.sender_id s1 s2 hs

/-- Closed witness for C1: three consecutive `protect` calls on a concrete context. -/
theorem claim_C1_witness :
    (c1WitnessOuts.map (fun o => o.seq)).Pairwise (· < ·) ∧
    (c1WitnessOuts.map (fun o => o.seq)).Nodup ∧
    (c1WitnessOuts.map (fun o => o.nonce)).Nodup :=
  claim_C1_sequence_monotonicity c1WitnessCtx c1WitnessMsgs c1WitnessOuts c1WitnessCtx2
    (by rfl)

/-- C2: for every shared group configuration and every plaintext request and response,
the full bidirectional scenario succeeds and returns exactly the original messages:
the receiver's `unprotect` of the sender's `protect` is the identity on the payload in
the request direction and in the response direction. -/
theorem claim_C2_roundtrip (c : SharedGroupConfig) (ec es : Bytes)
    (req resp : PlainMessage) :
    roundTrip c ec es req resp = some (req, resp) := by
  simp [roundTrip, protect, unprotect, mkClientContext, mkServerContext, mkFixedGroupContext,
        fixedGroupContextInit, mkSimpleGroupContext, clientInput, serverInput,
        GroupConfigInput.toParams, maxSequenceNumber, buildNonce, externalAad, updateWindow,
        ReplayWindow.check_and_record, ReplayWindow.mkUnstarted, ReplayWindow.init_empty,
        aeadDecrypt_aeadEncrypt, verify_sign, decodePlain_encodePlain, sign,
        take_concat_len, drop_concat_len, List.lookup, encodePlain, decodePlain, verify,
        beq_self_eq_true, Bool.or_false]

/-- C3: a protected message accepted once by a receiver's `unprotect` is rejected with
`replayDetected` when the identical message is delivered to the same receiver again. -/
theorem claim_C3_replay_rejection (ctx : SecurityContext) (pm : ProtectedMessage)
    (corr : Option Nat) (pt : PlainMessage) (ctx' : SecurityContext)
    (h : unprotect ctx pm corr = .ok (pt, ctx')) :
    unprotect ctx' pm corr = .error .replayDetected := by
  unfold unprotect at h
  split at h
  next cred material w heq1 heq2 heq3 =>
    split at h
    next w2 hchk =>
      split at h
      next pt2 hdec =>
        split at h
        next hver =>
          simp only [Except.ok.injEq, Prod.mk.injEq] at h
          obtain ⟨hpt, hctx⟩ := h
          subst hctx
          have hw2 : (updateWindow ctx.recipient_replay_windows pm.kid w2).lookup pm.kid =
              some w2 :=
            lookup_updateWindow pm.kid w2 ctx.recipient_replay_windows w heq3
          have hrej := ReplayWindow.check_and_record_reject_repeat w w2 pm.piv hchk
          unfold unprotect
          simp only [heq1, heq2, hw2, hrej]
        · exact absurd h (by simp)
      · exact absurd h (by simp)
    next hchk => exact absurd h (by simp)
  next h1 h2 h3 => exact absurd h (by simp)

/-- Closed witness for C3: a concrete protected message delivered twice to the same
concrete server context. -/
theorem claim_C3_witness :
    unprotect c3WitnessCtx2 c3WitnessMsg none = .error .replayDetected :=
  claim_C3_replay_rejection c3WitnessCtx c3WitnessMsg none c3WitnessPt c3WitnessCtx2
    (by rfl)

/-- C4: in a context built by the repository's corrected constructor, every configured
peer's replay window has been explicitly initialized to the fresh empty state, and on
that state any first sequence number is accepted and becomes the initial highest. -/
theorem claim_C4_window_init (c : GroupConfigInput) (e : Bytes) (pid : Bytes) (s : Nat)
    (h : pid ∈ c.peers.map Prod.fst) :
    (mkFixedGroupContext c e).recipient_replay_windows.lookup pid =
      some freshReplayWindow ∧
    freshReplayWindow.started = true ∧ freshReplayWindow.anchored = false ∧
    freshReplayWindow.accepted = [] ∧
    freshReplayWindow.check_and_record s =
      (true, { freshReplayWindow with anchored := true, highest := s, accepted := [s] }) := by
  refine ⟨?_, rfl, rfl, rfl, rfl⟩
  rw [fixedWindows_eq]
  exact lookup_map_const pid freshReplayWindow c.peers h

/-- Closed witness for C4: the concrete client context with its one configured peer and
first sequence number 7. -/
theorem claim_C4_witness :
    (mkFixedGroupContext c4WitnessInput [9]).recipient_replay_windows.lookup [83, 49] =
      some freshReplayWindow ∧
    freshReplayWindow.started = true ∧ freshReplayWindow.anchored = false ∧
    freshReplayWindow.accepted = [] ∧
    freshReplayWindow.check_and_record 7 =
      (true, { freshReplayWindow with anchored := true, highest := 7, accepted := [7] }) :=
  claim_C4_window_init c4WitnessInput [9] [83, 49] 7 (by decide)

/-- C5: context construction either hands the caller a context produced by the
constructor, or the constructor failure is observable to the caller as None — and the
server startup head aborts on None instead of proceeding with no context. -/
theorem claim_C5_construction_surfaced (s : SeedSource) (f : CredFile) (e : Bytes)
    (isClient : Bool) :
    ((∃ ctx, mkFixedGroupContextE (groupContextInput isClient (loadedCreds s f)) e = .ok ctx ∧
        create_group_context isClient s f e = some ctx) ∨
     (∃ err, mkFixedGroupContextE (groupContextInput isClient (loadedCreds s f)) e = .error err ∧
        create_group_context isClient s f e = none)) ∧
    ((∃ ctx, create_group_context false s f e = some ctx ∧
        run_server_start s f e = .running ctx) ∨
     (create_group_context false s f e = none ∧
        run_server_start s f e = .abortedNoContext)) := by
  constructor
  · cases hE : mkFixedGroupContextE (groupContextInput isClient (loadedCreds s f)) e with
    | ok ctx => exact Or.inl ⟨ctx, rfl, by simp [create_group_context, hE]⟩
    | error err => exact Or.inr ⟨err, rfl, by simp [create_group_context, hE]⟩
  · cases hC : create_group_context false s f e with
    | some ctx => exact Or.inl ⟨ctx, rfl, by simp [run_server_start, hC]⟩
    | none => exact Or.inr ⟨rfl, by simp [run_server_start, hC]⟩

/-- C6 counterexample: on a concrete corrupt credential file, `load_credentials` does
not fail fatally; it automatically regenerates and saves fresh credentials. -/
theorem claim_C6_counterexample :
    load_credentials seedWit (CredFile.corrupt "not json") =
      .regenerated (generate_credentials seedWit)
        [FileOp.openWrite CREDENTIALS_FILE,
         FileOp.writeData CREDENTIALS_FILE
           (serializeCredentials (generate_credentials seedWit))] := rfl

/-- C6 amended: when the persisted credential file exists but cannot be read or parsed,
`load` logs the error and automatically regenerates and saves fresh credentials; the
run proceeds with those, with no fatal startup failure and no operator intervention. -/
theorem claim_C6_corrupt_regenerates (s : SeedSource) (raw : String) :
    load_credentials s (CredFile.corrupt raw) =
      .regenerated (generate_credentials s)
        [FileOp.openWrite CREDENTIALS_FILE,
         FileOp.writeData CREDENTIALS_FILE
           (serializeCredentials (generate_credentials s))] := rfl

/-- C7 counterexample: the file-operation trace of a concrete credential write is not an
atomic write-temp-then-rename of the credential file. -/
theorem claim_C7_counterexample :
    atomicViaTempRename (generate_and_save_credentials seedWit).2 CREDENTIALS_FILE =
      false := by decide

/-- C7 amended: every credential write opens the final credential path directly and
writes the serialized dictionary there; no temporary file and no rename is involved, so
the write is not atomic and a concurrent reader could observe a partial file. -/
theorem claim_C7_direct_write (s : SeedSource) :
    (generate_and_save_credentials s).2 =
      [FileOp.openWrite CREDENTIALS_FILE,
       FileOp.writeData CREDENTIALS_FILE
         (serializeCredentials (generate_credentials s))] ∧
    atomicViaTempRename (generate_and_save_credentials s).2 CREDENTIALS_FILE = false ∧
    (generate_and_save_credentials s).2.all (fun op => !op.isRename) = true := by
  refine ⟨rfl, ?_, rfl⟩
  simp [atomicViaTempRename, generate_and_save_credentials, bne_self_eq_false]

/-- C8: key derivation is deterministic across members — the material a context caches
for a peer at its own construction equals the sender material that peer derives for
itself at its independent construction, with no key exchange between the two. -/
theorem claim_C8_derivation_agreement (c : SharedGroupConfig) (ec es : Bytes) :
    (mkClientContext c ec).recipient_keys.lookup c.server_id =
      some ((mkServerContext c es).sender_key) ∧
    (mkServerContext c es).recipient_keys.lookup c.client_id =
      some ((mkClientContext c ec).sender_key) ∧
    (mkClientContext c ec).sender_key =
      derive (clientInput c).toParams c.client_id groupRecipient ∧
    (mkServerContext c es).sender_key =
      derive (serverInput c).toParams c.server_id groupRecipient := by
  refine ⟨?_, ?_, rfl, rfl⟩ <;>
    simp [mkClientContext, mkServerContext, mkFixedGroupContext, fixedGroupContextInit,
      mkSimpleGroupContext, clientInput, serverInput, GroupConfigInput.toParams,
      List.lookup]

/-- C9 counterexample: the keys of a concrete generated credential dictionary are the
fixed role names, and neither wire member identifier of GROUP_CONFIG (C1 or S1) appears
among them. -/
theorem claim_C9_counterexample :
    (credentialEntries (generate_credentials seedWit)).map Prod.fst =
      ["group_manager", "client", "server"] ∧
    ((credentialEntries (generate_credentials seedWit)).map Prod.fst).contains
      (memberIdKey GROUP_CONFIG_client_id) = false ∧
    ((credentialEntries (generate_credentials seedWit)).map Prod.fst).contains
      (memberIdKey GROUP_CONFIG_server_id) = false := by decide

/-- C9 amended: the credential file holds exactly one entry per group member plus one
for the group manager — three entries keyed by the fixed role names group_manager,
client and server rather than by the wire member identifiers — each carrying the hex
encodings of the raw private key bytes and the raw public credential bytes. -/
theorem claim_C9_credential_layout (s : SeedSource) :
    serializedEntries (generate_credentials s) =
      [("group_manager", bytesHex s.gm_seed, bytesHex (pubOf s.gm_seed)),
       ("client", bytesHex s.client_seed, bytesHex (pubOf s.client_seed)),
       ("server", bytesHex s.server_seed, bytesHex (pubOf s.server_seed))] := rfl

/-- C10: `pairwise_for` returns the group context itself for every recipient identifier,
so protecting a response through it is exactly protecting with the group context (group
mode, carrying this sender's countersignature); a pairwise-keyed context is never
used. -/
theorem claim_C10_pairwise_is_group (ctx : SecurityContext) (rid : Bytes)
    (m : PlainMessage) (corr : Nat) :
    pairwise_for ctx rid = ctx ∧
    protect (pairwise_for ctx rid) m (some corr) = protect ctx m (some corr) :=
  ⟨rfl, rfl⟩

end IotCommSec
